import Mathlib

/-!
Shallow embedding of `phoenix_handler.py` (the MindsDB Apache Phoenix handler).

The external `phoenixdb` driver is modelled by a `Driver` record giving the
outcome of each driver call (`phoenixdb.connect`, `cursor.execute`,
`cursor.fetchall`, `cursor.description`, `connection.commit`); cell values are
modelled as strings.  Each handler method is a function from the driver
behaviour and the handler's mutable state (`self.connection`,
`self.is_connected`) to a result, the new state, and the list of driver
interactions it performed, in order.  A Python exception that a method does
not catch is modelled by `Except.error` at the method's outer level; an
exception converted to a response envelope stays inside `Except.ok`.
-/

set_option autoImplicit false

namespace Phoenix

/-- A fetched row, as returned by `cursor.fetchall()`. -/
abbrev Row := List String

/-- A pandas data frame as used by the handler: ordered column labels and rows. -/
structure DataFrame where
  columns : List String
  rows : List Row
deriving DecidableEq, Repr

/-- `RESPONSE_TYPE` from `mindsdb.integrations.libs.response`. -/
inductive RESPONSE_TYPE where
  | TABLE
  | OK
  | ERROR
deriving DecidableEq, Repr

/-- `HandlerResponse`: response envelope with a type tag, an optional data
frame (only populated for `TABLE`), and an optional error message (only
populated for `ERROR`). -/
structure Response where
  resp_type : RESPONSE_TYPE
  data_frame : Option DataFrame
  error_message : Option String
deriving DecidableEq, Repr

/-- `HandlerStatusResponse`: success flag plus optional error message. -/
structure StatusResponse where
  success : Bool
  error_message : Option String
deriving DecidableEq, Repr

/-- One observable interaction with the external driver. -/
inductive DriverEvent where
  | openConn
  | execute (q : String)
  | fetchall
  | commit
  | cursorClose
  | connClose
deriving DecidableEq, Repr

/-- Behaviour of the external `phoenixdb` driver for one scenario:
the outcome of `phoenixdb.connect`, of `cursor.execute` (per query text),
of `cursor.fetchall`, the cursor's `description` (column name, type token),
and the outcome of `connection.commit`.  `Except.error e` models the call
raising an exception whose `str` is `e`. -/
structure Driver where
  openRes : Except String Unit
  execRes : String → Except String Unit
  fetchRes : Except String (List Row)
  description : List (String × String)
  commitRes : Except String Unit

/-- The handler's connection-related mutable state: `self.connection`
(an opaque handle, identified by a number; `none` before any connect) and
`self.is_connected`.  `nextConnId` supplies fresh handle identities. -/
structure HandlerState where
  connection : Option Nat
  is_connected : Bool
  nextConnId : Nat
deriving DecidableEq, Repr

/-- `PhoenixHandler.connect`: if already connected, return without touching the
driver; otherwise call `phoenixdb.connect` — on success store the new handle
and set `is_connected`, on failure propagate the exception with the state
unchanged. -/
def connect (d : Driver) (s : HandlerState) :
    Except String Unit × HandlerState × List DriverEvent :=
  if s.is_connected then (.ok (), s, [])
  else
    match d.openRes with
    | .ok _ => (.ok (), ⟨some s.nextConnId, true, s.nextConnId + 1⟩, [.openConn])
    | .error e => (.error e, s, [.openConn])

/-- `PhoenixHandler.disconnect`: if not connected, a bare `return`
(Python `None`, modelled as `none`) with no driver interaction; otherwise
close the handle, clear `is_connected`, and return the new flag (`False`). -/
def disconnect (s : HandlerState) :
    Option Bool × HandlerState × List DriverEvent :=
  if s.is_connected then
    (some false, { s with is_connected := false }, [.connClose])
  else
    (none, s, [])

/-- `PhoenixHandler.check_connection`: probe the connection.  Builds a failure
status, records whether a teardown will be needed (`need_to_close`), tries
`connect` (catching any exception into the status), and in the `finally`
block tears the probe connection down when it was newly opened, and clears a
lingering `is_connected` flag on failure. -/
def check_connection (d : Driver) (s : HandlerState) :
    StatusResponse × HandlerState × List DriverEvent :=
  let need_to_close := s.is_connected = false
  match connect d s with
  | (.ok _, s1, ev1) =>
    if need_to_close then
      let r := disconnect s1
      (⟨true, none⟩, r.2.1, ev1 ++ r.2.2)
    else
      (⟨true, none⟩, s1, ev1)
  | (.error e, s1, ev1) =>
    let s2 := if s1.is_connected then { s1 with is_connected := false } else s1
    (⟨false, some e⟩, s2, ev1)

/-- Error-variant response envelope, `Response(RESPONSE_TYPE.ERROR, error_message=e)`. -/
def errorResponse (e : String) : Response :=
  ⟨.ERROR, none, some e⟩

/-- Ack response envelope, `Response(RESPONSE_TYPE.OK)`. -/
def okResponse : Response :=
  ⟨.OK, none, none⟩

/-- Table-variant response envelope, `Response(RESPONSE_TYPE.TABLE, data_frame=df)`. -/
def tableResponse (df : DataFrame) : Response :=
  ⟨.TABLE, some df, none⟩

/-- Common tail of `native_query` and `get_columns`: `cursor.close()`, then
`self.disconnect()` when the connection was opened for this call only, then
`return response`. -/
def finishCall (need_to_close : Bool) (response : Response) (s1 : HandlerState)
    (ev : List DriverEvent) :
    Except String (Response × HandlerState × List DriverEvent) :=
  if need_to_close then
    let r := disconnect s1
    .ok (response, r.2.1, ev ++ [.cursorClose] ++ r.2.2)
  else
    .ok (response, s1, ev ++ [.cursorClose])

/-- `PhoenixHandler.native_query`: remember whether the connection is
ephemeral, connect (exceptions here propagate — this is before the `try`),
open a cursor, then inside `try`: execute the query and fetch; a non-empty
result becomes a `TABLE` response with the description's names as column
labels, an empty result is committed and becomes `OK`; any exception becomes
an `ERROR` response carrying `str(e)`.  The cursor is closed and an ephemeral
connection disconnected in every case. -/
def native_query (d : Driver) (s : HandlerState) (query : String) :
    Except String (Response × HandlerState × List DriverEvent) :=
  let need_to_close := s.is_connected = false
  match connect d s with
  | (.error e, _, _) => .error e
  | (.ok _, s1, ev1) =>
    match d.execRes query with
    | .error e =>
      finishCall need_to_close (errorResponse e) s1 (ev1 ++ [.execute query])
    | .ok _ =>
      match d.fetchRes with
      | .error e =>
        finishCall need_to_close (errorResponse e) s1
          (ev1 ++ [.execute query, .fetchall])
      | .ok result =>
        if result = [] then
          match d.commitRes with
          | .ok _ =>
            finishCall need_to_close okResponse s1
              (ev1 ++ [.execute query, .fetchall, .commit])
          | .error e =>
            finishCall need_to_close (errorResponse e) s1
              (ev1 ++ [.execute query, .fetchall, .commit])
        else
          finishCall need_to_close
            (tableResponse ⟨d.description.map (fun x => x.1), result⟩) s1
            (ev1 ++ [.execute query, .fetchall])

/-- The query text `f"SELECT * from {table_name} LIMIT 5"`. -/
def sampleQuery (table_name : String) : String :=
  "SELECT * from " ++ table_name ++ " LIMIT 5"

/-- `PhoenixHandler.get_columns`: same shell as `native_query`, but executes
the sample query for the table, discards the fetched rows, and reports one
row per `cursor.description` entry with columns `column_name`, `data_type`. -/
def get_columns (d : Driver) (s : HandlerState) (table_name : String) :
    Except String (Response × HandlerState × List DriverEvent) :=
  let need_to_close := s.is_connected = false
  match connect d s with
  | (.error e, _, _) => .error e
  | (.ok _, s1, ev1) =>
    let q := sampleQuery table_name
    match d.execRes q with
    | .error e =>
      finishCall need_to_close (errorResponse e) s1 (ev1 ++ [.execute q])
    | .ok _ =>
      match d.fetchRes with
      | .error e =>
        finishCall need_to_close (errorResponse e) s1
          (ev1 ++ [.execute q, .fetchall])
      | .ok _ =>
        finishCall need_to_close
          (tableResponse ⟨["column_name", "data_type"],
            d.description.map (fun x => [x.1, x.2])⟩) s1
          (ev1 ++ [.execute q, .fetchall])

/-- The fixed catalog query text of `get_tables` (a triple-quoted string with
its surrounding whitespace). -/
def catalogQuery : String :=
  "\n            SELECT DISTINCT TABLE_NAME, TABLE_SCHEM FROM SYSTEM.CATALOG\n        "

/-- `df[df[col] != val]`: keep the rows whose entry in column `col` differs
from `val`; a missing column label raises `KeyError`. -/
def dfFilterNe (df : DataFrame) (col val : String) : Except String DataFrame :=
  match df.columns.findIdx? (fun c => c == col) with
  | none => .error ("KeyError: " ++ col)
  | some i => .ok ⟨df.columns, df.rows.filter (fun r => r[i]? != some val)⟩

/-- `df.drop(col, axis=1)`: remove the column and the corresponding cell of
every row; a missing column label raises `KeyError`. -/
def dfDrop (df : DataFrame) (col : String) : Except String DataFrame :=
  match df.columns.findIdx? (fun c => c == col) with
  | none => .error ("KeyError: " ++ col)
  | some i => .ok ⟨df.columns.eraseIdx i, df.rows.map (fun r => r.eraseIdx i)⟩

/-- `df.rename(columns={df.columns[0]: newName})`: relabel every column equal
to the first label; on an empty column list, `df.columns[0]` raises
`IndexError`. -/
def dfRenameFirst (df : DataFrame) (newName : String) : Except String DataFrame :=
  match df.columns with
  | [] => .error "IndexError: index 0 is out of bounds"
  | c0 :: _ =>
    .ok ⟨df.columns.map (fun c => if c == c0 then newName else c), df.rows⟩

/-- The Python `TypeError` raised when `get_tables` subscripts the absent data
frame of a non-`TABLE` response (`result.data_frame` is `None`). -/
def noneSubscriptError : String :=
  "TypeError: NoneType is not subscriptable"

/-- `PhoenixHandler.get_tables`: run the fixed catalog query through
`native_query`, then post-process the data frame: drop the rows of schema
`SYSTEM`, drop the `TABLE_SCHEM` column, and rename the first remaining
column to `table_name`.  The post-processing subscripts `result.data_frame`
unconditionally, so a non-`TABLE` response (whose data frame is `None`)
makes it raise. -/
def get_tables (d : Driver) (s : HandlerState) :
    Except String (Response × HandlerState × List DriverEvent) :=
  match native_query d s catalogQuery with
  | .error e => .error e
  | .ok (result, s1, ev) =>
    match result.data_frame with
    | none => .error noneSubscriptError
    | some df =>
      match dfFilterNe df "TABLE_SCHEM" "SYSTEM" with
      | .error e => .error e
      | .ok df1 =>
        match dfDrop df1 "TABLE_SCHEM" with
        | .error e => .error e
        | .ok df2 =>
          match dfRenameFirst df2 "table_name" with
          | .error e => .error e
          | .ok df3 => .ok ({ result with data_frame := some df3 }, s1, ev)

/-- The caller-supplied `connection_data` dictionary: an insertion-ordered
mapping from parameter names to values (`none` models Python `None`). -/
abbrev ConnectionData := List (String × Option String)

/-- The `optional_parameters` list of `PhoenixHandler.__init__`. -/
def optional_parameters : List String :=
  ["max_retries", "autocommit", "auth", "authentication",
   "avatica_user", "avatica_password", "user", "password"]

/-- `parameter in connection_data`: dictionary key membership. -/
def dictContains (cd : ConnectionData) (k : String) : Bool :=
  cd.any (fun p => p.1 == k)

/-- `connection_data[k]` as a lookup: `some v` when the key is present with
value `v`, `none` when the key is absent. -/
def dictGet (cd : ConnectionData) (k : String) : Option (Option String) :=
  (cd.find? (fun p => p.1 == k)).map (fun p => p.2)

/-- One iteration of the `__init__` loop: `if parameter not in connection_data:
connection_data[parameter] = None` (insertion on a missing key appends). -/
def normStep (acc : ConnectionData) (p : String) : ConnectionData :=
  if dictContains acc p then acc else acc ++ [(p, none)]

/-- The effect of `PhoenixHandler.__init__` on the caller's `connection_data`
dictionary: for each optional parameter not already present, insert it with
value `None` (in-place mutation of the caller's object). -/
def handlerInit (cd : ConnectionData) : ConnectionData :=
  optional_parameters.foldl normStep cd

/-- Predicate for counting `cursorClose` events. -/
def isCursorClose : DriverEvent → Bool
  | .cursorClose => true
  | _ => false

/-- Predicate for counting `connClose` events. -/
def isConnClose : DriverEvent → Bool
  | .connClose => true
  | _ => false

/-- Predicate for counting `commit` events. -/
def isCommit : DriverEvent → Bool
  | .commit => true
  | _ => false

/-- Number of events in the trace satisfying `p`. -/
def countEv (ev : List DriverEvent) (p : DriverEvent → Bool) : Nat :=
  (ev.filter p).length

/-- `true` exactly when the call raised (its modelled Python exception
escaped to the caller). -/
def raised (x : Except String (Response × HandlerState × List DriverEvent)) : Bool :=
  match x with
  | .error _ => true
  | .ok _ => false

/-- A fake driver whose queries return two rows under columns `id`, `name`. -/
def dRows : Driver :=
  ⟨.ok (), fun _ => .ok (), .ok [["1", "a"], ["2", "b"]],
   [("id", "INTEGER"), ("name", "VARCHAR")], .ok ()⟩

/-- A fake driver whose queries succeed but return no rows. -/
def dEmpty : Driver :=
  ⟨.ok (), fun _ => .ok (), .ok [], [("id", "INTEGER")], .ok ()⟩

/-- A fake driver for which `cursor.execute` raises `boom`. -/
def dRaise : Driver :=
  ⟨.ok (), fun _ => .error "boom", .ok [], [], .ok ()⟩

/-- A fake driver for which `phoenixdb.connect` raises `conn refused`. -/
def dNoConn : Driver :=
  ⟨.error "conn refused", fun _ => .ok (), .ok [], [], .ok ()⟩

/-- A fake driver answering the catalog query of `get_tables` with one
system-schema table and one application table. -/
def dCatalog : Driver :=
  ⟨.ok (), fun _ => .ok (), .ok [["T1", "SYSTEM"], ["T2", "APP"]],
   [("TABLE_NAME", "VARCHAR"), ("TABLE_SCHEM", "VARCHAR")], .ok ()⟩

/-- A freshly constructed, disconnected handler state. -/
def s0 : HandlerState := ⟨none, false, 0⟩

/-- A handler state already holding a live connection. -/
def sConn : HandlerState := ⟨some 0, true, 1⟩

/-- `connection_data` as a caller would supply it, with only the required
`url` key. -/
def cdExample : ConnectionData := [("url", some "http://127.0.0.1:8765")]

end Phoenix


namespace Phoenix

/-! Helper lemmas about the embedded operations. -/

theorem connect_of_connected (d : Driver) (s : HandlerState)
    (hc : s.is_connected = true) :
    connect d s = (.ok (), s, []) := by
  simp [connect, hc]

theorem connect_of_fresh (d : Driver) (s : HandlerState)
    (hc : s.is_connected = false) (hopen : d.openRes = .ok ()) :
    connect d s = (.ok (), ⟨some s.nextConnId, true, s.nextConnId + 1⟩, [.openConn]) := by
  simp [connect, hc, hopen]

theorem connect_of_fail (d : Driver) (s : HandlerState) (e : String)
    (hc : s.is_connected = false) (hopen : d.openRes = .error e) :
    connect d s = (.error e, s, [.openConn]) := by
  simp [connect, hc, hopen]

theorem nq_table_connected (d : Driver) (s : HandlerState) (q : String)
    (rows : List Row) (hc : s.is_connected = true)
    (hexec : d.execRes q = .ok ()) (hfetch : d.fetchRes = .ok rows)
    (hne : rows ≠ []) :
    native_query d s q =
      .ok (tableResponse ⟨d.description.map (fun x => x.1), rows⟩, s,
        [.execute q, .fetchall, .cursorClose]) := by
  simp [native_query, connect_of_connected d s hc, hexec, hfetch, hne,
    finishCall, hc]

theorem nq_table_fresh (d : Driver) (s : HandlerState) (q : String)
    (rows : List Row) (hc : s.is_connected = false)
    (hopen : d.openRes = .ok ()) (hexec : d.execRes q = .ok ())
    (hfetch : d.fetchRes = .ok rows) (hne : rows ≠ []) :
    native_query d s q =
      .ok (tableResponse ⟨d.description.map (fun x => x.1), rows⟩,
        ⟨some s.nextConnId, false, s.nextConnId + 1⟩,
        [.openConn, .execute q, .fetchall, .cursorClose, .connClose]) := by
  simp [native_query, connect_of_fresh d s hc hopen, hexec, hfetch, hne,
    finishCall, hc, disconnect]

end Phoenix

namespace Phoenix

theorem dictContains_append_left (a b : ConnectionData) (k : String)
    (h : dictContains a k = true) : dictContains (a ++ b) k = true := by
  simp only [dictContains, List.any_append, Bool.or_eq_true]
  exact Or.inl h

theorem dictGet_append_of_contains (a b : ConnectionData) (k : String)
    (h : dictContains a k = true) : dictGet (a ++ b) k = dictGet a k := by
  induction a with
  | nil => simp [dictContains] at h
  | cons p a ih =>
    by_cases hp : (p.1 == k) = true
    · simp [dictGet, List.find?, hp]
    · have hp' : (p.1 == k) = false := by
        simpa using hp
      have h' : dictContains a k = true := by
        simpa [dictContains, hp'] using h
      simpa [dictGet, List.find?, hp'] using ih h'

theorem normStep_get (acc : ConnectionData) (p k : String)
    (h : dictContains acc k = true) :
    dictGet (normStep acc p) k = dictGet acc k := by
  by_cases hc : dictContains acc p = true
  · simp [normStep, hc]
  · simp only [normStep, hc, if_false]
    exact dictGet_append_of_contains acc [(p, none)] k h

theorem normStep_contains (acc : ConnectionData) (p k : String)
    (h : dictContains acc k = true) :
    dictContains (normStep acc p) k = true := by
  by_cases hc : dictContains acc p = true
  · simpa [normStep, hc] using h
  · simp only [normStep, hc, if_false]
    exact dictContains_append_left acc [(p, none)] k h

theorem normStep_contains_self (acc : ConnectionData) (p : String) :
    dictContains (normStep acc p) p = true := by
  by_cases hc : dictContains acc p = true
  · simp [normStep, hc]
  · have hc' : dictContains acc p = false := by
      simpa using hc
    unfold normStep
    rw [hc']
    simp [dictContains, List.any_append]

theorem foldl_normStep_get (ps : List String) (acc : ConnectionData) (k : String)
    (h : dictContains acc k = true) :
    dictGet (ps.foldl normStep acc) k = dictGet acc k := by
  induction ps generalizing acc with
  | nil => rfl
  | cons p ps ih =>
    rw [List.foldl_cons, ih (normStep acc p) (normStep_contains acc p k h),
      normStep_get acc p k h]

theorem foldl_normStep_contains (ps : List String) (acc : ConnectionData)
    (k : String) (h : dictContains acc k = true) :
    dictContains (ps.foldl normStep acc) k = true := by
  induction ps generalizing acc with
  | nil => exact h
  | cons p ps ih =>
    rw [List.foldl_cons]
    exact ih (normStep acc p) (normStep_contains acc p k h)

theorem foldl_normStep_contains_mem (ps : List String) (acc : ConnectionData)
    (p : String) (hp : p ∈ ps) :
    dictContains (ps.foldl normStep acc) p = true := by
  induction ps generalizing acc with
  | nil => cases hp
  | cons q ps ih =>
    rw [List.foldl_cons]
    rcases List.mem_cons.mp hp with h | h
    · subst h
      exact foldl_normStep_contains ps (normStep acc p) p
        (normStep_contains_self acc p)
    · exact ih (normStep acc q) h

end Phoenix

namespace Phoenix

/-- C1: for every query whose execution yields a non-empty row set,
`native_query` returns a Table-variant result whose column labels are exactly
the driver cursor's description names in the driver-reported order, and whose
rows are exactly the fetched rows in the order and count returned by the
driver, with no re-sorting. -/
theorem native_query_table_result (d : Driver) (s : HandlerState) (q : String)
    (rows : List Row)
    (hconn : s.is_connected = true ∨ d.openRes = .ok ())
    (hexec : d.execRes q = .ok ())
    (hfetch : d.fetchRes = .ok rows)
    (hne : rows ≠ []) :
    ∃ s1 ev, native_query d s q =
      .ok (tableResponse ⟨d.description.map (fun x => x.1), rows⟩, s1, ev) := by
  by_cases hc : s.is_connected = true
  · exact ⟨s, _, nq_table_connected d s q rows hc hexec hfetch hne⟩
  · have hc' : s.is_connected = false := by
      simpa using hc
    have hopen : d.openRes = .ok () := by
      rcases hconn with h | h
      · exact absurd h hc
      · exact h
    exact ⟨_, _, nq_table_fresh d s q rows hc' hopen hexec hfetch hne⟩

/-- Witness for C1: two rows under columns `id`, `name` come back verbatim. -/
theorem native_query_table_result_witness :
    ∃ s1 ev, native_query dRows s0 "SELECT A FROM B" =
      .ok (tableResponse ⟨["id", "name"], [["1", "a"], ["2", "b"]]⟩, s1, ev) :=
  native_query_table_result dRows s0 "SELECT A FROM B" [["1", "a"], ["2", "b"]]
    (Or.inr rfl) rfl rfl (by decide)

/-- C2: for every query whose execution (execute, fetch, or commit) raises,
`native_query` catches the exception, returns an Error-variant result whose
message equals the raised exception's message, never lets the exception
propagate (the call returns `ok`), closes the per-call cursor exactly once,
and, if the connection was opened solely for this call, closes that
connection before returning. -/
theorem native_query_execution_error (d : Driver) (s : HandlerState) (q e : String)
    (hconn : s.is_connected = true ∨ d.openRes = .ok ())
    (hraise : d.execRes q = .error e ∨
      (d.execRes q = .ok () ∧ d.fetchRes = .error e) ∨
      (d.execRes q = .ok () ∧ d.fetchRes = .ok [] ∧ d.commitRes = .error e)) :
    ∃ s1 ev, native_query d s q = .ok (errorResponse e, s1, ev) ∧
      countEv ev isCursorClose = 1 ∧
      (s.is_connected = false →
        countEv ev isConnClose = 1 ∧ s1.is_connected = false) := by
  by_cases hc : s.is_connected = true
  · rcases hraise with hE | ⟨hE, hF⟩ | ⟨hE, hF, hC⟩
    · exact ⟨s, [.execute q, .cursorClose],
        by simp [native_query, connect_of_connected d s hc, hE, finishCall, hc],
        rfl, fun h => Bool.noConfusion (hc.symm.trans h)⟩
    · exact ⟨s, [.execute q, .fetchall, .cursorClose],
        by simp [native_query, connect_of_connected d s hc, hE, hF, finishCall, hc],
        rfl, fun h => Bool.noConfusion (hc.symm.trans h)⟩
    · exact ⟨s, [.execute q, .fetchall, .commit, .cursorClose],
        by simp [native_query, connect_of_connected d s hc, hE, hF, hC, finishCall, hc],
        rfl, fun h => Bool.noConfusion (hc.symm.trans h)⟩
  · have hc' : s.is_connected = false := by
      simpa using hc
    have hopen : d.openRes = .ok () := by
      rcases hconn with h | h
      · exact absurd h hc
      · exact h
    rcases hraise with hE | ⟨hE, hF⟩ | ⟨hE, hF, hC⟩
    · exact ⟨⟨some s.nextConnId, false, s.nextConnId + 1⟩,
        [.openConn, .execute q, .cursorClose, .connClose],
        by simp [native_query, connect_of_fresh d s hc' hopen, hE, finishCall,
          hc', disconnect],
        rfl, fun _ => ⟨rfl, rfl⟩⟩
    · exact ⟨⟨some s.nextConnId, false, s.nextConnId + 1⟩,
        [.openConn, .execute q, .fetchall, .cursorClose, .connClose],
        by simp [native_query, connect_of_fresh d s hc' hopen, hE, hF, finishCall,
          hc', disconnect],
        rfl, fun _ => ⟨rfl, rfl⟩⟩
    · exact ⟨⟨some s.nextConnId, false, s.nextConnId + 1⟩,
        [.openConn, .execute q, .fetchall, .commit, .cursorClose, .connClose],
        by simp [native_query, connect_of_fresh d s hc' hopen, hE, hF, hC,
          finishCall, hc', disconnect],
        rfl, fun _ => ⟨rfl, rfl⟩⟩

/-- Witness for C2: a raising `execute` on a fresh connection yields the
Error envelope, one cursor close, one connection close. -/
theorem native_query_execution_error_witness :
    ∃ s1 ev, native_query dRaise s0 "BAD SQL" = .ok (errorResponse "boom", s1, ev) ∧
      countEv ev isCursorClose = 1 ∧
      (s0.is_connected = false →
        countEv ev isConnClose = 1 ∧ s1.is_connected = false) :=
  native_query_execution_error dRaise s0 "BAD SQL" "boom" (Or.inr rfl) (Or.inl rfl)

/-- C7: for every query whose execution succeeds but yields no rows,
`native_query` calls `commit` on the connection exactly once and returns the
Ack (`OK`) variant of the result. -/
theorem native_query_empty_commit_ack (d : Driver) (s : HandlerState) (q : String)
    (hconn : s.is_connected = true ∨ d.openRes = .ok ())
    (hexec : d.execRes q = .ok ())
    (hfetch : d.fetchRes = .ok [])
    (hcommit : d.commitRes = .ok ()) :
    ∃ s1 ev, native_query d s q = .ok (okResponse, s1, ev) ∧
      countEv ev isCommit = 1 := by
  by_cases hc : s.is_connected = true
  · exact ⟨s, [.execute q, .fetchall, .commit, .cursorClose],
      by simp [native_query, connect_of_connected d s hc, hexec, hfetch, hcommit,
        finishCall, hc],
      rfl⟩
  · have hc' : s.is_connected = false := by
      simpa using hc
    have hopen : d.openRes = .ok () := by
      rcases hconn with h | h
      · exact absurd h hc
      · exact h
    exact ⟨⟨some s.nextConnId, false, s.nextConnId + 1⟩,
      [.openConn, .execute q, .fetchall, .commit, .cursorClose, .connClose],
      by simp [native_query, connect_of_fresh d s hc' hopen, hexec, hfetch,
        hcommit, finishCall, hc', disconnect],
      rfl⟩

/-- Witness for C7: an UPDATE-like query with no rows gives `OK` and one commit. -/
theorem native_query_empty_commit_ack_witness :
    ∃ s1 ev, native_query dEmpty s0 "UPDATE T SET X = 1" = .ok (okResponse, s1, ev) ∧
      countEv ev isCommit = 1 :=
  native_query_empty_commit_ack dEmpty s0 "UPDATE T SET X = 1"
    (Or.inr rfl) rfl rfl rfl

/-- C10: if establishing the connection itself fails inside `native_query` or
`get_columns` (the driver's open raises before any cursor exists), the
exception propagates uncaught to the caller rather than being converted into
an Error-variant result, because connection acquisition happens before the
exception-catching region. -/
theorem connect_failure_uncaught (d : Driver) (s : HandlerState) (q t e : String)
    (hdisc : s.is_connected = false) (hopen : d.openRes = .error e) :
    native_query d s q = .error e ∧ get_columns d s t = .error e := by
  constructor
  · simp [native_query, connect_of_fail d s e hdisc hopen]
  · simp [get_columns, connect_of_fail d s e hdisc hopen]

/-- Witness for C10: a refused connection raises out of both entry points. -/
theorem connect_failure_uncaught_witness :
    native_query dNoConn s0 "SELECT 1" = .error "conn refused" ∧
    get_columns dNoConn s0 "foo" = .error "conn refused" :=
  connect_failure_uncaught dNoConn s0 "SELECT 1" "foo" "conn refused" rfl rfl

end Phoenix

namespace Phoenix

/-- C3: `check_connection` leaves the handler's connection state exactly as it
found it whenever the probe succeeds: a handler connected beforehand keeps
the very same state (same live connection), and a handler disconnected
beforehand is disconnected again after a successful probe. -/
theorem check_connection_probe_frame (d : Driver) (s : HandlerState) :
    (s.is_connected = true → check_connection d s = (⟨true, none⟩, s, [])) ∧
    (s.is_connected = false → d.openRes = .ok () →
      (check_connection d s).1.success = true ∧
      (check_connection d s).2.1.is_connected = false) := by
  constructor
  · intro hc
    simp [check_connection, connect_of_connected d s hc, hc]
  · intro hc hopen
    have h : check_connection d s =
        (⟨true, none⟩, ⟨some s.nextConnId, false, s.nextConnId + 1⟩,
          [.openConn, .connClose]) := by
      simp [check_connection, connect_of_fresh d s hc hopen, hc, disconnect]
    rw [h]
    exact ⟨rfl, rfl⟩

/-- Witness for C3: an already-connected handler is untouched; a disconnected
handler is disconnected again after a successful probe. -/
theorem check_connection_probe_frame_witness :
    check_connection dRows sConn = (⟨true, none⟩, sConn, []) ∧
    ((check_connection dRows s0).1.success = true ∧
      (check_connection dRows s0).2.1.is_connected = false) :=
  ⟨(check_connection_probe_frame dRows sConn).1 rfl,
   (check_connection_probe_frame dRows s0).2 rfl rfl⟩

/-- C4: if the connect attempt inside `check_connection` raises, the call
returns a failure status carrying the raised exception's text (never
swallowed), and whenever `check_connection` reports failure the handler is
left marked disconnected, even if the flag had been erroneously set. -/
theorem check_connection_connect_failure (d : Driver) (s : HandlerState) (e : String) :
    (s.is_connected = false → d.openRes = .error e →
      check_connection d s = (⟨false, some e⟩, s, [.openConn])) ∧
    ((check_connection d s).1.success = false →
      (check_connection d s).2.1.is_connected = false) := by
  constructor
  · intro hc hopen
    simp [check_connection, connect_of_fail d s e hc hopen, hc]
  · intro hfail
    by_cases hc : s.is_connected = true
    · have h : check_connection d s = (⟨true, none⟩, s, []) := by
        simp [check_connection, connect_of_connected d s hc, hc]
      rw [h] at hfail
      exact Bool.noConfusion hfail
    · have hc' : s.is_connected = false := by
        simpa using hc
      cases hopen : d.openRes with
      | ok u =>
        cases u
        have h : check_connection d s =
            (⟨true, none⟩, ⟨some s.nextConnId, false, s.nextConnId + 1⟩,
              [.openConn, .connClose]) := by
          simp [check_connection, connect_of_fresh d s hc' hopen, hc', disconnect]
        rw [h] at hfail
        exact Bool.noConfusion hfail
      | error e2 =>
        have h : check_connection d s = (⟨false, some e2⟩, s, [.openConn]) := by
          simp [check_connection, connect_of_fail d s e2 hc' hopen, hc']
        rw [h]
        exact hc'

/-- Witness for C4: a refused connection gives a failure status with the
driver's message and a disconnected final state. -/
theorem check_connection_connect_failure_witness :
    check_connection dNoConn s0 = (⟨false, some "conn refused"⟩, s0, [.openConn]) ∧
    (check_connection dNoConn s0).2.1.is_connected = false :=
  ⟨(check_connection_connect_failure dNoConn s0 "conn refused").1 rfl rfl,
   (check_connection_connect_failure dNoConn s0 "conn refused").2 rfl⟩

/-- C8 counterexample: `disconnect` on a disconnected handler returns the
Python `None` (no boolean at all), not the current state flag, and it is not
the value the first of two consecutive disconnects returns (`False`). -/
theorem disconnect_return_value_cex :
    (disconnect s0).1 = none ∧ (disconnect s0).1 ≠ some false ∧
    (disconnect sConn).1 = some false ∧
    (disconnect (disconnect sConn).2.1).1 ≠ (disconnect sConn).1 := by
  refine ⟨rfl, ?_, rfl, ?_⟩ <;> decide

/-- C8 (amended): `disconnect` when not connected is a no-op with no driver
interaction that returns no value (Python `None`); when connected it closes
the handle, marks the state disconnected, and returns the new flag
(`False`).  Both leave the state disconnected, but the two return values
differ. -/
theorem disconnect_return_value (s : HandlerState) :
    (s.is_connected = false → disconnect s = (none, s, [])) ∧
    (s.is_connected = true →
      disconnect s = (some false, { s with is_connected := false }, [.connClose])) := by
  constructor
  · intro h
    simp [disconnect, h]
  · intro h
    simp [disconnect, h]

/-- Witness for C8 at a disconnected and at a connected state. -/
theorem disconnect_return_value_witness :
    disconnect s0 = (none, s0, []) ∧
    disconnect sConn = (some false, { sConn with is_connected := false }, [.connClose]) :=
  ⟨(disconnect_return_value s0).1 rfl, (disconnect_return_value sConn).2 rfl⟩

/-- C9 counterexample: constructing the handler with a `connection_data`
holding only `url` leaves the caller's mapping changed — the optional
parameters have been inserted with `None`. -/
theorem handlerInit_mutates_cex : handlerInit cdExample ≠ cdExample := by
  decide

/-- C9 (amended): `__init__` mutates the caller-supplied `connection_data` in
place, but only by inserting an explicit `None` entry for each absent
optional parameter: every key the caller supplied keeps its value, and every
optional parameter is present afterwards. -/
theorem handlerInit_normalizes (cd : ConnectionData) :
    (∀ k, dictContains cd k = true → dictGet (handlerInit cd) k = dictGet cd k) ∧
    (∀ p, p ∈ optional_parameters → dictContains (handlerInit cd) p = true) := by
  constructor
  · intro k hk
    exact foldl_normStep_get optional_parameters cd k hk
  · intro p hp
    exact foldl_normStep_contains_mem optional_parameters cd p hp

/-- Witness for C9: the supplied `url` keeps its value and `autocommit` is
inserted. -/
theorem handlerInit_normalizes_witness :
    dictGet (handlerInit cdExample) "url" = dictGet cdExample "url" ∧
    dictContains (handlerInit cdExample) "autocommit" = true :=
  ⟨(handlerInit_normalizes cdExample).1 "url" (by decide),
   (handlerInit_normalizes cdExample).2 "autocommit" (by decide)⟩

/-- C6: `get_columns t` executes exactly the text `SELECT * from t LIMIT 5`
(the name interpolated as-is), discards the fetched rows, and returns a
Table-variant result with columns `column_name`, `data_type` holding one row
per description entry, independent of the fetched rows' content. -/
theorem get_columns_description_table (d : Driver) (s : HandlerState)
    (t : String) (rows : List Row)
    (hconn : s.is_connected = true ∨ d.openRes = .ok ())
    (hexec : d.execRes (sampleQuery t) = .ok ())
    (hfetch : d.fetchRes = .ok rows) :
    ∃ s1 ev, get_columns d s t =
      .ok (tableResponse ⟨["column_name", "data_type"],
        d.description.map (fun x => [x.1, x.2])⟩, s1, ev) ∧
      DriverEvent.execute (sampleQuery t) ∈ ev := by
  by_cases hc : s.is_connected = true
  · refine ⟨s, [.execute (sampleQuery t), .fetchall, .cursorClose], ?_, ?_⟩
    · simp [get_columns, connect_of_connected d s hc, hexec, hfetch, finishCall, hc]
    · simp
  · have hc' : s.is_connected = false := by
      simpa using hc
    have hopen : d.openRes = .ok () := by
      rcases hconn with h | h
      · exact absurd h hc
      · exact h
    refine ⟨⟨some s.nextConnId, false, s.nextConnId + 1⟩,
      [.openConn, .execute (sampleQuery t), .fetchall, .cursorClose, .connClose], ?_, ?_⟩
    · simp [get_columns, connect_of_fresh d s hc' hopen, hexec, hfetch,
        finishCall, hc', disconnect]
    · simp

/-- Witness for C6: the description `[(id, INTEGER), (name, VARCHAR)]` becomes
the two-column metadata table even though rows were fetched. -/
theorem get_columns_description_table_witness :
    ∃ s1 ev, get_columns dRows s0 "foo" =
      .ok (tableResponse ⟨["column_name", "data_type"],
        [["id", "INTEGER"], ["name", "VARCHAR"]]⟩, s1, ev) ∧
      DriverEvent.execute (sampleQuery "foo") ∈ ev :=
  get_columns_description_table dRows s0 "foo" [["1", "a"], ["2", "b"]]
    (Or.inr rfl) rfl rfl

end Phoenix

namespace Phoenix

/-- C5 counterexample: with a driver whose `execute` raises `boom`, the
underlying catalog query yields the Error envelope, but `get_tables` does
not return that result — the post-processing subscripts the absent data
frame and the call raises instead. -/
theorem get_tables_error_cex :
    native_query dRaise s0 catalogQuery =
      .ok (errorResponse "boom", ⟨some 0, false, 1⟩,
        [.openConn, .execute catalogQuery, .cursorClose, .connClose]) ∧
    get_tables dRaise s0 = .error noneSubscriptError ∧
    raised (get_tables dRaise s0) = true :=
  ⟨rfl, rfl, rfl⟩

/-- C5 (amended): `get_tables` runs the fixed catalog query, excludes every
row whose schema column equals `SYSTEM`, drops the schema column, renames
the remaining column to `table_name`, and returns the filtered Table result;
but when the underlying catalog query errors, `get_tables` raises (the
post-processing fails on the absent data frame) instead of returning the
error result unchanged. -/
theorem get_tables_postprocessing (d : Driver) (s : HandlerState)
    (rows : List Row) (e : String)
    (hconn : s.is_connected = true ∨ d.openRes = .ok ()) :
    (d.description.map (fun x => x.1) = ["TABLE_NAME", "TABLE_SCHEM"] →
      d.execRes catalogQuery = .ok () → d.fetchRes = .ok rows → rows ≠ [] →
      ∃ s1 ev, get_tables d s =
        .ok (⟨.TABLE, some ⟨["table_name"],
          (rows.filter (fun r => r[1]? != some "SYSTEM")).map
            (fun r => r.eraseIdx 1)⟩, none⟩, s1, ev)) ∧
    (d.execRes catalogQuery = .error e →
      get_tables d s = .error noneSubscriptError) := by
  constructor
  · intro hdesc hexec hfetch hne
    have hfilter : dfFilterNe ⟨["TABLE_NAME", "TABLE_SCHEM"], rows⟩
        "TABLE_SCHEM" "SYSTEM" =
        .ok ⟨["TABLE_NAME", "TABLE_SCHEM"],
          rows.filter (fun r => r[1]? != some "SYSTEM")⟩ := rfl
    have hdrop : dfDrop ⟨["TABLE_NAME", "TABLE_SCHEM"],
        rows.filter (fun r => r[1]? != some "SYSTEM")⟩ "TABLE_SCHEM" =
        .ok ⟨["TABLE_NAME"],
          (rows.filter (fun r => r[1]? != some "SYSTEM")).map
            (fun r => r.eraseIdx 1)⟩ := rfl
    have hren : dfRenameFirst ⟨["TABLE_NAME"],
        (rows.filter (fun r => r[1]? != some "SYSTEM")).map
          (fun r => r.eraseIdx 1)⟩ "table_name" =
        .ok ⟨["table_name"],
          (rows.filter (fun r => r[1]? != some "SYSTEM")).map
            (fun r => r.eraseIdx 1)⟩ := rfl
    by_cases hc : s.is_connected = true
    · have hnq := nq_table_connected d s catalogQuery rows hc hexec hfetch hne
      rw [hdesc] at hnq
      exact ⟨s, [.execute catalogQuery, .fetchall, .cursorClose],
        by simp [get_tables, hnq, tableResponse, hfilter, hdrop, hren]⟩
    · have hc' : s.is_connected = false := by
        simpa using hc
      have hopen : d.openRes = .ok () := by
        rcases hconn with h | h
        · exact absurd h hc
        · exact h
      have hnq := nq_table_fresh d s catalogQuery rows hc' hopen hexec hfetch hne
      rw [hdesc] at hnq
      exact ⟨⟨some s.nextConnId, false, s.nextConnId + 1⟩,
        [.openConn, .execute catalogQuery, .fetchall, .cursorClose, .connClose],
        by simp [get_tables, hnq, tableResponse, hfilter, hdrop, hren]⟩
  · intro hE
    by_cases hc : s.is_connected = true
    · have hnq : native_query d s catalogQuery =
          .ok (errorResponse e, s, [.execute catalogQuery, .cursorClose]) := by
        simp [native_query, connect_of_connected d s hc, hE, finishCall, hc]
      simp [get_tables, hnq, errorResponse]
    · have hc' : s.is_connected = false := by
        simpa using hc
      have hopen : d.openRes = .ok () := by
        rcases hconn with h | h
        · exact absurd h hc
        · exact h
      have hnq : native_query d s catalogQuery =
          .ok (errorResponse e, ⟨some s.nextConnId, false, s.nextConnId + 1⟩,
            [.openConn, .execute catalogQuery, .cursorClose, .connClose]) := by
        simp [native_query, connect_of_fresh d s hc' hopen, hE, finishCall,
          hc', disconnect]
      simp [get_tables, hnq, errorResponse]

/-- Witness for C5: catalog rows `(T1, SYSTEM)` and `(T2, APP)` yield the
single-column `table_name` table holding `T2`; a raising catalog query makes
the call raise. -/
theorem get_tables_postprocessing_witness :
    (∃ s1 ev, get_tables dCatalog s0 =
      .ok (⟨.TABLE, some ⟨["table_name"], [["T2"]]⟩, none⟩, s1, ev)) ∧
    get_tables dRaise s0 = .error noneSubscriptError :=
  ⟨(get_tables_postprocessing dCatalog s0 [["T1", "SYSTEM"], ["T2", "APP"]] "x"
      (Or.inr rfl)).1 rfl rfl rfl (by decide),
   (get_tables_postprocessing dRaise s0 [] "boom" (Or.inr rfl)).2 rfl⟩

end Phoenix
